import Mathlib

/-!
Verification of the RS485 pressure-transmitter poller (`rs485main.c`).
The file embeds the CRC16 engine, the periodic poll trigger (`Timer0`),
the UART receive interrupt (`UartInt`), the request-send block and the
response validator of the main loop, and proves theorems about their
specified behaviour.
-/

namespace RS485

/-- Truncation to `unsigned char`: 8-bit values are taken mod 256. -/
def uchar (n : Nat) : Nat := n % 256

/-- CRC high-order byte table `auchCRCHi` from the source. -/
def auchCRCHi : List Nat := [
  0x00, 0xC1, 0x81, 0x40, 0x01, 0xC0, 0x80, 0x41, 0x01, 0xC0, 0x80, 0x41, 0x00, 0xC1, 0x81, 0x40,
  0x01, 0xC0, 0x80, 0x41, 0x00, 0xC1, 0x81, 0x40, 0x00, 0xC1, 0x81, 0x40, 0x01, 0xC0, 0x80, 0x41,
  0x01, 0xC0, 0x80, 0x41, 0x00, 0xC1, 0x81, 0x40, 0x00, 0xC1, 0x81, 0x40, 0x01, 0xC0, 0x80, 0x41,
  0x00, 0xC1, 0x81, 0x40, 0x01, 0xC0, 0x80, 0x41, 0x01, 0xC0, 0x80, 0x41, 0x00, 0xC1, 0x81, 0x40,
  0x01, 0xC0, 0x80, 0x41, 0x00, 0xC1, 0x81, 0x40, 0x00, 0xC1, 0x81, 0x40, 0x01, 0xC0, 0x80, 0x41,
  0x00, 0xC1, 0x81, 0x40, 0x01, 0xC0, 0x80, 0x41, 0x01, 0xC0, 0x80, 0x41, 0x00, 0xC1, 0x81, 0x40,
  0x00, 0xC1, 0x81, 0x40, 0x01, 0xC0, 0x80, 0x41, 0x01, 0xC0, 0x80, 0x41, 0x00, 0xC1, 0x81, 0x40,
  0x01, 0xC0, 0x80, 0x41, 0x00, 0xC1, 0x81, 0x40, 0x00, 0xC1, 0x81, 0x40, 0x01, 0xC0, 0x80, 0x41,
  0x01, 0xC0, 0x80, 0x41, 0x00, 0xC1, 0x81, 0x40, 0x00, 0xC1, 0x81, 0x40, 0x01, 0xC0, 0x80, 0x41,
  0x00, 0xC1, 0x81, 0x40, 0x01, 0xC0, 0x80, 0x41, 0x01, 0xC0, 0x80, 0x41, 0x00, 0xC1, 0x81, 0x40,
  0x00, 0xC1, 0x81, 0x40, 0x01, 0xC0, 0x80, 0x41, 0x01, 0xC0, 0x80, 0x41, 0x00, 0xC1, 0x81, 0x40,
  0x01, 0xC0, 0x80, 0x41, 0x00, 0xC1, 0x81, 0x40, 0x00, 0xC1, 0x81, 0x40, 0x01, 0xC0, 0x80, 0x41,
  0x00, 0xC1, 0x81, 0x40, 0x01, 0xC0, 0x80, 0x41, 0x01, 0xC0, 0x80, 0x41, 0x00, 0xC1, 0x81, 0x40,
  0x01, 0xC0, 0x80, 0x41, 0x00, 0xC1, 0x81, 0x40, 0x00, 0xC1, 0x81, 0x40, 0x01, 0xC0, 0x80, 0x41,
  0x01, 0xC0, 0x80, 0x41, 0x00, 0xC1, 0x81, 0x40, 0x00, 0xC1, 0x81, 0x40, 0x01, 0xC0, 0x80, 0x41,
  0x00, 0xC1, 0x81, 0x40, 0x01, 0xC0, 0x80, 0x41, 0x01, 0xC0, 0x80, 0x41, 0x00, 0xC1, 0x81, 0x40]

/-- CRC low-order byte table `auchCRCLo` from the source. -/
def auchCRCLo : List Nat := [
  0x00, 0xC0, 0xC1, 0x01, 0xC3, 0x03, 0x02, 0xC2, 0xC6, 0x06, 0x07, 0xC7, 0x05, 0xC5, 0xC4, 0x04,
  0xCC, 0x0C, 0x0D, 0xCD, 0x0F, 0xCF, 0xCE, 0x0E, 0x0A, 0xCA, 0xCB, 0x0B, 0xC9, 0x09, 0x08, 0xC8,
  0xD8, 0x18, 0x19, 0xD9, 0x1B, 0xDB, 0xDA, 0x1A, 0x1E, 0xDE, 0xDF, 0x1F, 0xDD, 0x1D, 0x1C, 0xDC,
  0x14, 0xD4, 0xD5, 0x15, 0xD7, 0x17, 0x16, 0xD6, 0xD2, 0x12, 0x13, 0xD3, 0x11, 0xD1, 0xD0, 0x10,
  0xF0, 0x30, 0x31, 0xF1, 0x33, 0xF3, 0xF2, 0x32, 0x36, 0xF6, 0xF7, 0x37, 0xF5, 0x35, 0x34, 0xF4,
  0x3C, 0xFC, 0xFD, 0x3D, 0xFF, 0x3F, 0x3E, 0xFE, 0xFA, 0x3A, 0x3B, 0xFB, 0x39, 0xF9, 0xF8, 0x38,
  0x28, 0xE8, 0xE9, 0x29, 0xEB, 0x2B, 0x2A, 0xEA, 0xEE, 0x2E, 0x2F, 0xEF, 0x2D, 0xED, 0xEC, 0x2C,
  0xE4, 0x24, 0x25, 0xE5, 0x27, 0xE7, 0xE6, 0x26, 0x22, 0xE2, 0xE3, 0x23, 0xE1, 0x21, 0x20, 0xE0,
  0xA0, 0x60, 0x61, 0xA1, 0x63, 0xA3, 0xA2, 0x62, 0x66, 0xA6, 0xA7, 0x67, 0xA5, 0x65, 0x64, 0xA4,
  0x6C, 0xAC, 0xAD, 0x6D, 0xAF, 0x6F, 0x6E, 0xAE, 0xAA, 0x6A, 0x6B, 0xAB, 0x69, 0xA9, 0xA8, 0x68,
  0x78, 0xB8, 0xB9, 0x79, 0xBB, 0x7B, 0x7A, 0xBA, 0xBE, 0x7E, 0x7F, 0xBF, 0x7D, 0xBD, 0xBC, 0x7C,
  0xB4, 0x74, 0x75, 0xB5, 0x77, 0xB7, 0xB6, 0x76, 0x72, 0xB2, 0xB3, 0x73, 0xB1, 0x71, 0x70, 0xB0,
  0x50, 0x90, 0x91, 0x51, 0x93, 0x53, 0x52, 0x92, 0x96, 0x56, 0x57, 0x97, 0x55, 0x95, 0x94, 0x54,
  0x9C, 0x5C, 0x5D, 0x9D, 0x5F, 0x9F, 0x9E, 0x5E, 0x5A, 0x9A, 0x9B, 0x5B, 0x99, 0x59, 0x58, 0x98,
  0x88, 0x48, 0x49, 0x89, 0x4B, 0x8B, 0x8A, 0x4A, 0x4E, 0x8E, 0x8F, 0x4F, 0x8D, 0x4D, 0x4C, 0x8C,
  0x44, 0x84, 0x85, 0x45, 0x87, 0x47, 0x46, 0x86, 0x82, 0x42, 0x43, 0x83, 0x41, 0x81, 0x80, 0x40]

/-- Loop body of `crc16`: the running pair `(uchCRCHi, uchCRCLo)` is updated
once per input byte exactly as in the source: `uIndex = uchCRCHi ^ byte`,
then `uchCRCHi = uchCRCLo ^ auchCRCHi[uIndex]` and
`uchCRCLo = auchCRCLo[uIndex]`. -/
def crc16Loop : Nat → Nat → List Nat → Nat × Nat
  | uchCRCHi, uchCRCLo, [] => (uchCRCHi, uchCRCLo)
  | uchCRCHi, uchCRCLo, b :: rest =>
      let uIndex := uchCRCHi ^^^ uchar b
      crc16Loop (uchCRCLo ^^^ auchCRCHi.getD uIndex 0) (auchCRCLo.getD uIndex 0) rest

/-- The function `crc16(puchMsg, usDataLen)` from the source: consume the first
`usDataLen` bytes (the C pointer walk), starting from `0xFF / 0xFF`, and
return `uchCRCHi << 8 | uchCRCLo`. -/
def crc16 (puchMsg : List Nat) (usDataLen : Nat) : Nat :=
  let r := crc16Loop 0xFF 0xFF (puchMsg.take usDataLen)
  r.1 <<< 8 ||| r.2

/-- The routine `LcdPrintNum(num)`: the five character codes written to the display, in
order; each digit is obtained by division/modulo as in the source
(`num/10000+48`, `num%10000/1000+48`, `num%1000/100+48`, `num%100/10+48`,
`num%10+48`). -/
def LcdPrintNum (num : Nat) : List Nat :=
  [num / 10000 + 48, num % 10000 / 1000 + 48, num % 1000 / 100 + 48,
   num % 100 / 10 + 48, num % 10 + 48]

/-- The shared globals of `rs485main.c` that the claims are about.
Counters declared `uchar` wrap mod 256, the `uint` globals wrap mod 2^16
(16-bit `unsigned int` on this target). -/
structure St where
  UART1_ucRec_Flag : Bool
  receBuf : List Nat
  receTimeOut : Nat
  receCount : Nat
  fasongbiaozhi : Nat
  Rressure : Nat
  gCount : Nat
  crcData : Nat

/-- All-zero start state (C globals are zero-initialised; `receBuf` has
nine cells). -/
def st0 : St :=
  { UART1_ucRec_Flag := false, receBuf := List.replicate 9 0,
    receTimeOut := 0, receCount := 0, fasongbiaozhi := 0,
    Rressure := 0, gCount := 0, crcData := 0 }

/-- The C write `receBuf[receCount] = SBUF` lands inside the nine-byte
array exactly when `receCount < 9` at the moment the byte arrives. -/
def writeInBounds (st : St) : Prop := st.receCount < 9

instance (st : St) : Decidable (writeInBounds st) := by
  unfold writeInBounds; infer_instance

/-- Receive branch of the UART interrupt (`RI` set): raise the data flag,
zero the inter-byte timeout, store the byte at `receBuf[receCount]` and
increment `receCount` (a `uchar`). The source performs the store with no
bounds check; `List.set` ignores an out-of-range index, and
`writeInBounds` records when the C store is actually inside the array. -/
def UartIntRecv (st : St) (sbuf : Nat) : St :=
  { st with
    UART1_ucRec_Flag := true
    receTimeOut := 0
    receBuf := st.receBuf.set st.receCount (uchar sbuf)
    receCount := uchar (st.receCount + 1) }

/-- Predicate `allWritesInBounds st bytes`: holds when every buffer store performed
while the bytes of `bytes` arrive in order (starting from state `st`)
stays inside the nine-byte array. -/
def allWritesInBounds (st : St) : List Nat → Bool
  | [] => true
  | b :: rest => decide (writeInBounds st) && allWritesInBounds (UartIntRecv st b) rest

/-- Timer-0 interrupt (1 ms): increment `gCount` and `receTimeOut`
(capping the latter at 100); once `gCount` exceeds 100, clear it and set
the send flag `fasongbiaozhi`. -/
def Timer0 (st : St) : St :=
  let g := (st.gCount + 1) % 65536
  let t0 := uchar (st.receTimeOut + 1)
  let t := if t0 > 100 then 100 else t0
  if g > 100 then
    { st with gCount := 0, receTimeOut := t, fasongbiaozhi := 1 }
  else
    { st with gCount := g, receTimeOut := t }

/-- The eight constant bytes the main loop hands to `UART_SendChar`. -/
def requestFrame : List Nat := [0x01, 0x03, 0x00, 0x00, 0x00, 0x01, 0x84, 0x0A]

/-- Send block of the main loop: when `fasongbiaozhi == 1`, emit the eight
constant request bytes, clear the flag and zero `gCount`. The returned
list is the sequence of bytes transmitted, in order. -/
def sendRequest (st : St) : St × List Nat :=
  if st.fasongbiaozhi = 1 then
    ({ st with fasongbiaozhi := 0, gCount := 0 }, requestFrame)
  else (st, [])

/-- Header check of the validator:
`receBuf[0]==0x01 && receBuf[1]==0x03 && receBuf[2]==0x02`. -/
def headerOK (buf : List Nat) : Prop :=
  buf.getD 0 0 = 0x01 ∧ buf.getD 1 0 = 0x03 ∧ buf.getD 2 0 = 0x02

instance (buf : List Nat) : Decidable (headerOK buf) := by
  unfold headerOK; infer_instance

/-- CRC check of the validator: `crcData == receBuf[6] + (receBuf[5]*256)`;
the right-hand side is reduced mod 2^16 because the comparison is done in
16-bit arithmetic (for byte-valued buffers the reduction is the
identity). -/
def crcOK (buf : List Nat) : Prop :=
  crc16 buf 5 = (buf.getD 6 0 + buf.getD 5 0 * 256) % 65536

instance (buf : List Nat) : Decidable (crcOK buf) := by
  unfold crcOK; infer_instance

/-- One pass of the serial-parse block of the main loop, taken at the
moment the busy-wait `while (receCount <= 7)` loop has exited: header
check, then `crcData = crc16(receBuf, 5)` and the CRC comparison, then on
success the decode `Rressure = receBuf[3]*256 + receBuf[4]` (16-bit) and
the display write; finally the unconditional reset
`UART1_ucRec_Flag = FALSE; receCount = 0`. The second component is
`some (row, column, characters)` when `LcdGotoXY`/`LcdPrintNum` ran,
`none` otherwise. -/
def serialParse (st : St) : St × Option (Nat × Nat × List Nat) :=
  if st.UART1_ucRec_Flag then
    if headerOK st.receBuf then
      let c := crc16 st.receBuf 5
      if crcOK st.receBuf then
        let r := (st.receBuf.getD 3 0 * 256 + st.receBuf.getD 4 0) % 65536
        ({ st with crcData := c, Rressure := r,
                   UART1_ucRec_Flag := false, receCount := 0 },
         some (1, 5, LcdPrintNum r))
      else
        ({ st with crcData := c, UART1_ucRec_Flag := false, receCount := 0 },
         none)
    else
      ({ st with UART1_ucRec_Flag := false, receCount := 0 }, none)
  else (st, none)

/-- Spec-style restatement of the CRC algorithm: a left fold over the
first `len` bytes starting from `(0xFF, 0xFF)`; per byte
`index = high XOR byte`, `newHigh = low XOR auchCRCHi[index]`,
`newLow = auchCRCLo[index]`; the result is `high <<< 8 ||| low`. -/
def crc16Fold (msg : List Nat) (len : Nat) : Nat :=
  let r := (msg.take len).foldl (fun p b =>
    let i := p.1 ^^^ uchar b
    (p.2 ^^^ auchCRCHi.getD i 0, auchCRCLo.getD i 0)) (0xFF, 0xFF)
  r.1 <<< 8 ||| r.2

/-- The recursive CRC loop is the left fold of the per-byte table step. -/
theorem crc16Loop_eq_foldl (l : List Nat) (hi lo : Nat) :
    crc16Loop hi lo l =
      l.foldl (fun p b =>
        let i := p.1 ^^^ uchar b
        (p.2 ^^^ auchCRCHi.getD i 0, auchCRCLo.getD i 0)) (hi, lo) := by
  induction l generalizing hi lo with
  | nil => rfl
  | cons b rest ih =>
    simp only [crc16Loop, List.foldl]
    exact ih _ _

/-- Claim C6: `crc16` is a pure, deterministic function of the first
`length` input bytes, computing exactly the described table fold: start
with high byte `0xFF` and low byte `0xFF`; per input byte set
`index = high XOR byte`, then `newHigh = low XOR auchCRCHi[index]` and
`newLow = auchCRCLo[index]`; finally return `high <<< 8 ||| low`. In
particular two buffers agreeing on their first `n` bytes receive the same
checksum. -/
theorem crc16_pure_table_fold :
    (∀ msg len, crc16 msg len = crc16Fold msg len) ∧
    (∀ m₁ m₂ n, m₁.take n = m₂.take n → crc16 m₁ n = crc16 m₂ n) := by
  constructor
  · intro msg len
    unfold crc16 crc16Fold
    rw [crc16Loop_eq_foldl]
  · intro m₁ m₂ n h
    unfold crc16
    rw [h]

/-- Witness for C6 at concrete inputs: both formulations agree on the
five-byte response prefix, and a longer buffer sharing the same first
five bytes has the same checksum. -/
theorem crc16_pure_table_fold_witness :
    crc16 [1, 3, 2, 1, 44] 5 = crc16Fold [1, 3, 2, 1, 44] 5 ∧
    [1, 3, 2, 1, 44, 7, 7].take 5 = [1, 3, 2, 1, 44].take 5 ∧
    crc16 [1, 3, 2, 1, 44, 7, 7] 5 = crc16 [1, 3, 2, 1, 44] 5 :=
  ⟨crc16_pure_table_fold.1 [1, 3, 2, 1, 44] 5, by decide,
   crc16_pure_table_fold.2 [1, 3, 2, 1, 44, 7, 7] [1, 3, 2, 1, 44] 5 (by decide)⟩

/-- While `gCount` stays at most 100, each timer tick just increments it
and leaves the send flag alone. -/
theorem timer0_iterate (n : Nat) : ∀ st : St, st.gCount + n ≤ 100 →
    (Timer0^[n] st).gCount = st.gCount + n ∧
    (Timer0^[n] st).fasongbiaozhi = st.fasongbiaozhi := by
  induction n with
  | zero => intro st _; simp
  | succ n ih =>
    intro st h
    rw [Function.iterate_succ_apply]
    have hg : (st.gCount + 1) % 65536 = st.gCount + 1 :=
      Nat.mod_eq_of_lt (by omega)
    have h1 : (Timer0 st).gCount = st.gCount + 1 ∧
        (Timer0 st).fasongbiaozhi = st.fasongbiaozhi := by
      simp only [Timer0, hg]
      rw [if_neg (by omega)]
      exact ⟨rfl, rfl⟩
    have h2 := ih (Timer0 st) (by omega)
    rw [h2.1, h2.2, h1.1, h1.2]
    exact ⟨by omega, rfl⟩

/-- Claim C4: starting from a zero tick counter with the send flag clear,
ticks 1 through 100 never raise `fasongbiaozhi`; the 101st tick raises it
and resets `gCount` to zero. -/
theorem timer0_fires_on_101st_tick (st : St) (h0 : st.gCount = 0)
    (h1 : st.fasongbiaozhi = 0) :
    (∀ n, 1 ≤ n → n ≤ 100 → (Timer0^[n] st).fasongbiaozhi = 0) ∧
    (Timer0^[101] st).fasongbiaozhi = 1 ∧ (Timer0^[101] st).gCount = 0 := by
  have hiter := timer0_iterate 100 st (by omega)
  have hg : (Timer0^[100] st).gCount = 100 := by rw [hiter.1, h0]
  have h101 : Timer0^[101] st = Timer0 (Timer0^[100] st) :=
    Function.iterate_succ_apply' Timer0 100 st
  refine ⟨fun n hn1 hn2 => ?_, ?_, ?_⟩
  · rw [(timer0_iterate n st (by omega)).2, h1]
  · rw [h101]
    simp only [Timer0, hg]
    rw [if_pos (by norm_num)]
  · rw [h101]
    simp only [Timer0, hg]
    rw [if_pos (by norm_num)]

/-- Witness for C4 at the all-zero start state. -/
theorem timer0_fires_on_101st_tick_witness :
    st0.gCount = 0 ∧ st0.fasongbiaozhi = 0 ∧
    (Timer0^[100] st0).fasongbiaozhi = 0 ∧
    (Timer0^[101] st0).fasongbiaozhi = 1 ∧ (Timer0^[101] st0).gCount = 0 :=
  ⟨rfl, rfl,
   (timer0_fires_on_101st_tick st0 rfl rfl).1 100 (by decide) (by decide),
   (timer0_fires_on_101st_tick st0 rfl rfl).2.1,
   (timer0_fires_on_101st_tick st0 rfl rfl).2.2⟩

/-- Every store stays in bounds while the bytes still to arrive fit into
the space left in the nine-byte buffer. -/
theorem allWritesInBounds_of_le : ∀ (bytes : List Nat) (st : St),
    st.receCount + bytes.length ≤ 9 → allWritesInBounds st bytes = true := by
  intro bytes
  induction bytes with
  | nil => intro st _; rfl
  | cons b rest ih =>
    intro st h
    have hlt : st.receCount < 9 := by
      simp only [List.length_cons] at h; omega
    have hcnt : (UartIntRecv st b).receCount = st.receCount + 1 := by
      simp only [UartIntRecv, uchar]
      exact Nat.mod_eq_of_lt (by omega)
    unfold allWritesInBounds
    rw [Bool.and_eq_true]
    constructor
    · simp [writeInBounds, hlt]
    · exact ih _ (by rw [hcnt]; simp only [List.length_cons] at h; omega)

/-- Claim C9: the UART receive handler stores at `receBuf[receCount]` with
no bounds check; one store is in bounds exactly when `receCount ≤ 8`, and
in every run in which at most nine bytes arrive after a count reset every
store is in bounds. -/
theorem uart_store_bounds (st : St) (bytes : List Nat)
    (h0 : st.receCount = 0) (hlen : bytes.length ≤ 9) :
    allWritesInBounds st bytes = true ∧
    (∀ st' : St, writeInBounds st' ↔ st'.receCount ≤ 8) := by
  refine ⟨allWritesInBounds_of_le bytes st (by omega), fun st' => ?_⟩
  unfold writeInBounds
  omega

/-- Witness for C9: nine arriving bytes from the reset state, all stores
in bounds. -/
theorem uart_store_bounds_witness :
    st0.receCount = 0 ∧
    ([10, 20, 30, 40, 50, 60, 70, 80, 90] : List Nat).length ≤ 9 ∧
    allWritesInBounds st0 [10, 20, 30, 40, 50, 60, 70, 80, 90] = true :=
  ⟨rfl, by decide,
   (uart_store_bounds st0 [10, 20, 30, 40, 50, 60, 70, 80, 90] rfl (by decide)).1⟩

/-- Claim C7: whenever the send flag is observed set, the main loop emits
exactly the constant eight-byte request `[0x01, 0x03, 0x00, 0x00, 0x00,
0x01, 0x84, 0x0A]`, whose two trailing bytes encode the CRC16 of the
first six, then clears the flag and zeroes the poll tick counter. -/
theorem send_block_request (st : St) (h : st.fasongbiaozhi = 1) :
    (sendRequest st).2 = [0x01, 0x03, 0x00, 0x00, 0x00, 0x01, 0x84, 0x0A] ∧
    (sendRequest st).2.getD 6 0 * 256 + (sendRequest st).2.getD 7 0 =
      crc16 ((sendRequest st).2.take 6) 6 ∧
    (sendRequest st).1.fasongbiaozhi = 0 ∧ (sendRequest st).1.gCount = 0 := by
  have h2 : (sendRequest st).2 = [0x01, 0x03, 0x00, 0x00, 0x00, 0x01, 0x84, 0x0A] := by
    simp [sendRequest, h, requestFrame]
  refine ⟨h2, ?_, ?_, ?_⟩
  · rw [h2]
    decide
  · simp [sendRequest, h]
  · simp [sendRequest, h]

/-- State with the send flag raised, for the C7 witness. -/
def sendSt : St := { st0 with fasongbiaozhi := 1 }

/-- Witness for C7 at a concrete state with the send flag raised. -/
theorem send_block_request_witness :
    sendSt.fasongbiaozhi = 1 ∧
    (sendRequest sendSt).2 = [0x01, 0x03, 0x00, 0x00, 0x00, 0x01, 0x84, 0x0A] :=
  ⟨rfl, (send_block_request sendSt rfl).1⟩

/-- Claim C8: every exit path of the serial-parse block — accept, header
failure or CRC failure — clears the data-available flag and zeroes the
receive count. -/
theorem parse_resets_receive_state (st : St)
    (h : st.UART1_ucRec_Flag = true) :
    (serialParse st).1.UART1_ucRec_Flag = false ∧
    (serialParse st).1.receCount = 0 := by
  by_cases hh : headerOK st.receBuf
  · by_cases hc : crcOK st.receBuf
    · simp [serialParse, h, hh, hc]
    · simp [serialParse, h, hh, hc]
  · simp [serialParse, h, hh]

/-- A pending-data state with eight received bytes, for the C8 witness. -/
def pendingSt : St := { st0 with UART1_ucRec_Flag := true, receCount := 8 }

/-- Witness for C8 at a concrete state. -/
theorem parse_resets_receive_state_witness :
    pendingSt.UART1_ucRec_Flag = true ∧
    (serialParse pendingSt).1.receCount = 0 ∧
    (serialParse pendingSt).1.UART1_ucRec_Flag = false :=
  ⟨rfl, (parse_resets_receive_state pendingSt rfl).2,
   (parse_resets_receive_state pendingSt rfl).1⟩

/-- Claim C5: a buffer failing the three-byte header check
(`receBuf[0] != 1` or `receBuf[1] != 3` or `receBuf[2] != 2`) aborts
before the CRC step: no display write, `Rressure` unchanged, and even the
`crcData` global is untouched. -/
theorem header_mismatch_aborts (st : St) (h : st.UART1_ucRec_Flag = true)
    (hbad : ¬ headerOK st.receBuf) :
    (serialParse st).2 = none ∧ (serialParse st).1.Rressure = st.Rressure ∧
    (serialParse st).1.crcData = st.crcData := by
  simp [serialParse, h, hbad]

/-- A pending frame whose slave-address byte is wrong, for the C5
witness. -/
def badAddrSt : St :=
  { st0 with
    UART1_ucRec_Flag := true
    receBuf := [2, 3, 2, 1, 44, 184, 9, 0, 0] }

/-- Witness for C5: a frame with a wrong slave address is ignored. -/
theorem header_mismatch_aborts_witness :
    ¬ headerOK badAddrSt.receBuf ∧ (serialParse badAddrSt).2 = none :=
  ⟨by decide, (header_mismatch_aborts badAddrSt rfl (by decide)).1⟩

/-- Claim C10: on every cycle whose validation fails the stored reading
and the display are untouched, and `Rressure` changes only on the path
that also writes the display. -/
theorem failed_validation_preserves_reading (st : St)
    (h : st.UART1_ucRec_Flag = true) :
    (¬ (headerOK st.receBuf ∧ crcOK st.receBuf) →
      (serialParse st).2 = none ∧ (serialParse st).1.Rressure = st.Rressure) ∧
    ((serialParse st).1.Rressure ≠ st.Rressure → (serialParse st).2 ≠ none) := by
  by_cases hh : headerOK st.receBuf
  · by_cases hc : crcOK st.receBuf
    · constructor
      · intro hko
        exact absurd ⟨hh, hc⟩ hko
      · intro _
        simp [serialParse, h, hh, hc]
    · constructor
      · intro _
        simp [serialParse, h, hh, hc]
      · intro hr
        exact absurd (by simp [serialParse, h, hh, hc]) hr
  · constructor
    · intro _
      simp [serialParse, h, hh]
    · intro hr
      exact absurd (by simp [serialParse, h, hh]) hr

/-- A pending frame with a corrupted trailing CRC pair and a previously
stored reading of 777, for the C10 witness. -/
def badCrcSt : St :=
  { st0 with
    UART1_ucRec_Flag := true
    Rressure := 777
    receBuf := [1, 3, 2, 1, 44, 0, 0, 0, 0] }

/-- Witness for C10: a frame with a corrupted trailing pair leaves the
reading unchanged and produces no display write. -/
theorem failed_validation_preserves_reading_witness :
    ¬ (headerOK badCrcSt.receBuf ∧ crcOK badCrcSt.receBuf) ∧
    (serialParse badCrcSt).2 = none ∧
    (serialParse badCrcSt).1.Rressure = 777 :=
  ⟨by decide,
   ((failed_validation_preserves_reading badCrcSt rfl).1 (by decide)).1,
   ((failed_validation_preserves_reading badCrcSt rfl).1 (by decide)).2⟩

/-- A pending frame that the code accepts: valid header, reading 300, and
trailing pair `[0xB8, 0x09]`, where `crc16` of the first five bytes is
`0xB809`. Used by the C1 counterexample and witness. -/
def acceptedSt : St :=
  { st0 with
    UART1_ucRec_Flag := true
    receBuf := [1, 3, 2, 1, 44, 184, 9, 0, 0] }

/-- Counterexample to claim C1 as stated: this concrete frame passes the
header check and is accepted by the code — the display is written — yet
the recomputed checksum `crc16(receBuf, 5) = 0xB809` differs from
`receBuf[5] + receBuf[6]*256 = 0xB8 + 0x09*256`. The code compares the
checksum against `receBuf[6] + receBuf[5]*256`, treating the first
trailing byte as the high byte of the comparison value. -/
theorem crc_byte_order_counterexample :
    (serialParse acceptedSt).2 ≠ none ∧
    crc16 acceptedSt.receBuf 5 ≠
      acceptedSt.receBuf.getD 5 0 + acceptedSt.receBuf.getD 6 0 * 256 := by
  decide

/-- Claim C1 (amended): with the header check passed, the frame is
accepted — decoded and displayed — if and only if the recomputed CRC16 of
the first five buffer bytes equals `receBuf[6] + receBuf[5]*256` (first
trailing byte high, second low); on a mismatch the frame is discarded
with no decode and no display write. -/
theorem crc_check_accepts_iff (st : St) (h : st.UART1_ucRec_Flag = true)
    (hh : headerOK st.receBuf) :
    ((serialParse st).2 ≠ none ↔ crcOK st.receBuf) ∧
    (¬ crcOK st.receBuf →
      (serialParse st).2 = none ∧ (serialParse st).1.Rressure = st.Rressure) := by
  by_cases hc : crcOK st.receBuf
  · constructor
    · simp [serialParse, h, hh, hc]
    · intro hk
      exact absurd hc hk
  · constructor
    · simp [serialParse, h, hh, hc]
    · intro _
      simp [serialParse, h, hh, hc]

/-- Witness for the amended C1 at the concrete accepted frame. -/
theorem crc_check_accepts_iff_witness :
    headerOK acceptedSt.receBuf ∧
    ((serialParse acceptedSt).2 ≠ none ↔ crcOK acceptedSt.receBuf) :=
  ⟨by decide, (crc_check_accepts_iff acceptedSt rfl (by decide)).1⟩

/-- Response frame carrying reading 300, its trailing pair holding the
correct CRC16 of the first five bytes in the transmitted order (the high
byte of the value returned by `crc16` goes first on the wire). -/
def frame300 : List Nat :=
  [0x01, 0x03, 0x02, 0x01, 0x2C,
   crc16 [0x01, 0x03, 0x02, 0x01, 0x2C] 5 / 256,
   crc16 [0x01, 0x03, 0x02, 0x01, 0x2C] 5 % 256, 0, 0]

/-- Pending state holding `frame300`, for claim C2. -/
def frame300St : St :=
  { st0 with
    UART1_ucRec_Flag := true
    receBuf := frame300 }

/-- Claim C2: the response `[0x01, 0x03, 0x02, 0x01, 0x2C]` completed with
the correct CRC16 in its trailing pair is accepted; the decoded pressure
is `0x01*256 + 0x2C = 300` and the display receives exactly the five
characters "00300". -/
theorem frame300_displays_00300 :
    (serialParse frame300St).1.Rressure = 300 ∧
    (serialParse frame300St).2 = some (1, 5, LcdPrintNum 300) ∧
    String.mk ((LcdPrintNum 300).map Char.ofNat) = "00300" := by
  decide

/-- A reachable state in which only one byte of the new frame has arrived
(`receCount = 1`) while the timeout counter has reached 10, and `receBuf`
still holds a previous valid frame. -/
def staleTimeoutSt : St :=
  { st0 with
    UART1_ucRec_Flag := true
    receCount := 1
    receTimeOut := 10
    receBuf := [1, 3, 2, 1, 44, 184, 9, 0, 0] }

/-- Counterexample to claim C3 as stated: at `staleTimeoutSt` the timeout
fires with fewer than 8 bytes of the new frame received, yet the
processing block still runs the header/CRC validation on the stale buffer
contents and writes the display. -/
theorem timeout_partial_frame_counterexample :
    staleTimeoutSt.receCount ≤ 7 ∧ staleTimeoutSt.receTimeOut ≥ 10 ∧
    (serialParse staleTimeoutSt).2 ≠ none := by
  decide

/-- Claim C3 (amended): when the timeout counter reaches 10 while the byte
count is still at most 7, the wait loop exits and the receive state is
reset — count zeroed, flag cleared — but the partially filled buffer
still undergoes the full header/CRC validation, and the display is
written exactly when those checks pass on the buffer's current
contents. -/
theorem timeout_partial_frame_validated (st : St)
    (h : st.UART1_ucRec_Flag = true) (_hcnt : st.receCount ≤ 7)
    (_ht : st.receTimeOut ≥ 10) :
    (serialParse st).1.receCount = 0 ∧
    (serialParse st).1.UART1_ucRec_Flag = false ∧
    ((serialParse st).2 ≠ none ↔ (headerOK st.receBuf ∧ crcOK st.receBuf)) := by
  by_cases hh : headerOK st.receBuf
  · by_cases hc : crcOK st.receBuf
    · simp [serialParse, h, hh, hc]
    · simp [serialParse, h, hh, hc]
  · simp [serialParse, h, hh]

/-- A timed-out state with three received header bytes and an otherwise
zero buffer, for the C3 witness. -/
def shortFrameSt : St :=
  { st0 with
    UART1_ucRec_Flag := true
    receCount := 3
    receTimeOut := 10
    receBuf := [1, 3, 2, 0, 0, 0, 0, 0, 0] }

/-- Witness for the amended C3 at a concrete timed-out state. -/
theorem timeout_partial_frame_validated_witness :
    shortFrameSt.receCount ≤ 7 ∧ shortFrameSt.receTimeOut ≥ 10 ∧
    (serialParse shortFrameSt).1.receCount = 0 :=
  ⟨by decide, by decide,
   (timeout_partial_frame_validated shortFrameSt rfl (by decide) (by decide)).1⟩

end RS485
